import Mathlib

/-!
# Credential-backed connection factories (`parkpcm/standard`)

A shallow embedding of the three Go packages `secret`, `database` and `email`.

* Strings are Lean `String`s; Go's `len(s)` is the UTF-8 byte size.
* Byte payloads (`[]byte`) are carried as `String`; their content is only ever
  looked at by `json.Unmarshal`, which is a parameter of the world.
* Everything outside the repository (environment, secret manager, file system,
  `encoding/json`, the SQL driver) is a field of `World`, one value per call.
* A method with a pointer receiver becomes a function returning a `Run`: the
  returned value, the receiver after the call, and the trace of outside calls.
-/

set_option linter.dupNamespace false

namespace Standard

/-! ## Go runtime: errors and `fmt` -/

/-- Go `error` values: `errors.New`/`fmt.Errorf` without `%w` give an
`errorString`, `fmt.Errorf` with `%w` gives a `wrapError` around its operand. -/
inductive GoError where
  | errorString (msg : String)
  | wrapError (msg : String) (err : GoError)
deriving DecidableEq, Repr

/-- The method `Error()`. -/
def GoError.Error : GoError → String
  | .errorString msg => msg
  | .wrapError msg _ => msg

/-- The function `errors.Is(err, target)`: walks the `Unwrap` chain. Go compares
sentinel errors by identity; here two errors are the same when they are built
the same way. -/
def GoError.Is : GoError → GoError → Bool
  | .errorString msg, target => decide (GoError.errorString msg = target)
  | .wrapError msg err, target =>
    decide (GoError.wrapError msg err = target) || GoError.Is err target

/-- An operand of a `fmt` call: a string or an error. -/
inductive Arg where
  | str (s : String)
  | err (e : GoError)
deriving DecidableEq, Repr

/-- What the verbs `%s`, `%v` and `%w` print for an operand. -/
def Arg.text : Arg → String
  | .str s => s
  | .err e => e.Error

/-- The formatting loop of `fmt` for the plain verbs the repository uses (`%s`,
`%v`, `%w`, no flags or widths): `%%` prints a percent sign, a verb consumes and
prints the next operand, a verb without operand prints `%!v(MISSING)`, a lone
final `%` prints `%!(NOVERB)`, every other character is copied. Every call in the
repository passes as many operands as its format has verbs, so the `%!(EXTRA ...)`
suffix for surplus operands never arises and is left out. -/
def formatChars : List Char → List Arg → List Char
  | [], _ => []
  | [c], _ => if c = '%' then "%!(NOVERB)".data else [c]
  | c :: v :: rest, args =>
    if c = '%' then
      if v = '%' then '%' :: formatChars rest args
      else
        match args with
        | a :: args => a.text.data ++ formatChars rest args
        | [] => '%' :: '!' :: v :: ("(MISSING)".data ++ formatChars rest [])
    else c :: formatChars (v :: rest) args

/-- The function `fmt.Sprintf`. -/
def Sprintf (format : String) (args : List Arg) : String :=
  String.mk (formatChars format.data args)

/-- The operand of the first `%w` verb of a format, if it is an error. -/
def wrappedOperand : List Char → List Arg → Option GoError
  | [], _ => none
  | [_], _ => none
  | c :: v :: rest, args =>
    if c = '%' then
      if v = '%' then wrappedOperand rest args
      else
        match args with
        | a :: args =>
          if v = 'w' then
            match a with
            | .err e => some e
            | .str _ => wrappedOperand rest args
          else wrappedOperand rest args
        | [] => none
    else wrappedOperand (v :: rest) args

/-- The function `fmt.Errorf`. -/
def Errorf (format : String) (args : List Arg) : GoError :=
  match wrappedOperand format.data args with
  | some e => .wrapError (Sprintf format args) e
  | none => .errorString (Sprintf format args)

/-- Go's `len` on a string: the number of bytes. -/
def len (s : String) : Nat := s.utf8ByteSize

/-! ## The outside world -/

/-- A `[]byte` payload. -/
abbrev Bytes := String

/-- A `*sql.DB` handle. -/
structure DB where
  id : Nat
deriving DecidableEq, Repr

/-- Calls that leave the process, in the order they are made. -/
inductive Event where
  | newSecretClient
  | accessSecretVersion (name : String)
  | readFile (path : String)
  | sqlOpen (driverName dataSourceName : String)
  | exec (db : DB) (query : String)
  | logErrorf (msg : String)
deriving DecidableEq, Repr

/-- The result of running a method: returned value, receiver afterwards, trace. -/
structure Run (σ α : Type) where
  ret : α
  state : σ
  trace : List Event

namespace database

/-- The struct `secretData` (JSON keys `instance`, `username`, `password`,
`database`, `private`). -/
structure secretData where
  Host : String
  Username : String
  Password : String
  Database : String
  Private : String
deriving DecidableEq, Repr

end database

namespace email

/-- The struct `clientCreds` (JSON keys `mailgun_domain`, `mailgun_key`). -/
structure clientCreds where
  Domain : String
  Key : String
deriving DecidableEq, Repr

/-- The value `mg.NewMailgun(domain, apiKey)` builds: it stores its two
arguments and makes no call. -/
structure MailgunImpl where
  domain : String
  apiKey : String
deriving DecidableEq, Repr

/-- The constructor `mg.NewMailgun`. -/
def NewMailgun (domain apiKey : String) : MailgunImpl := ⟨domain, apiKey⟩

end email

/-- Everything a call can observe outside the repository. -/
structure World where
  /-- The function `os.Getenv`. -/
  getenv : String → String
  /-- The call `secretmanager.NewClient(ctx)`; only success or failure matters. -/
  newClient : Except GoError Unit
  /-- The call `client.AccessSecretVersion`, returning `result.Payload.Data`. -/
  accessSecretVersion : String → Except GoError Bytes
  /-- The function `os.ReadFile`. -/
  readFile : String → Except GoError Bytes
  /-- The call `json.Unmarshal(data, &s)` for `s : secretData`. -/
  unmarshalSecretData : Bytes → Except GoError database.secretData
  /-- The call `json.Unmarshal(data, &mi)` for `mi : clientCreds`. -/
  unmarshalClientCreds : Bytes → Except GoError email.clientCreds
  /-- The function `sql.Open`. -/
  sqlOpen : String → String → Except GoError DB
  /-- The method `(*sql.DB).Exec`; its result value is discarded by the callers. -/
  exec : DB → String → Except GoError Unit

/-! ## Package `secret` -/

namespace secret

/-- The function `getSecret`. -/
def getSecret (w : World) (path : String) : Except GoError Bytes × List Event :=
  match w.newClient with
  | .error err =>
    (.error (Errorf "failed to create secretmanager client: %v" [.err err]),
      [.newSecretClient])
  | .ok _ =>
    match w.accessSecretVersion path with
    | .error err =>
      (.error (Errorf "failed to access secret version: %v" [.err err]),
        [.newSecretClient, .accessSecretVersion path])
    | .ok data => (.ok data, [.newSecretClient, .accessSecretVersion path])

/-- The function `Get`. -/
def Get (w : World) (path : String) : Except GoError Bytes × List Event :=
  getSecret w path

/-- The function `GetFromVolume`. -/
def GetFromVolume (w : World) (path : String) : Except GoError Bytes × List Event :=
  (w.readFile path, [.readFile path])

end secret

/-! ## Package `database` -/

namespace database

/-- The sentinel `ErrConnectingToDatabase`. -/
def ErrConnectingToDatabase : GoError :=
  .errorString "unexpected error connecting to the database"

/-- The sentinel `ErrMissingConfigurationVariable`. -/
def ErrMissingConfigurationVariable : GoError :=
  .errorString "missing configuration variable"

/-- The struct `Connection`; the Go field `private` is `private_` here. -/
structure Connection where
  host : String
  username : String
  password : String
  database : String
  private_ : String
  credLoaded : Bool
  CredsPath : String
deriving DecidableEq, Repr

/-- The method `fromSecret`. -/
def Connection.fromSecret (c : Connection) (s : secretData) : Connection :=
  { c with
    host := s.Host
    username := s.Username
    password := s.Password
    database := s.Database
    private_ := s.Private }

/-- The method `Validate`; `none` is Go's `nil`. -/
def Connection.Validate (c : Connection) : Option GoError :=
  if len c.username = 0 then
    some (Errorf "%w missing username" [.err ErrMissingConfigurationVariable])
  else if len c.private_ = 0 then
    some (Errorf "%w missing password" [.err ErrMissingConfigurationVariable])
  else if len c.database = 0 then
    some (Errorf "%w missing database" [.err ErrMissingConfigurationVariable])
  else none

/-- The source-selection block of `loadCredentials` (lines 71 to 81): the bytes
or the error the method returns, with the calls made. -/
def Connection.fetch (w : World) (c : Connection) : Except GoError Bytes × List Event :=
  if len (w.getenv "SECRET_PATH") > 0 then
    match secret.Get w (w.getenv "SECRET_PATH") with
    | (.error err, tr) =>
      (.error (Errorf "%w error getting credentials from SECRET_PATH" [.err err]), tr)
    | (.ok data, tr) => (.ok data, tr)
  else if len c.CredsPath > 0 then
    match secret.GetFromVolume w c.CredsPath with
    | (.error err, tr) =>
      (.error (Errorf "%w error getting credentials from %s" [.err err, .str c.CredsPath]), tr)
    | (.ok data, tr) => (.ok data, tr)
  else (.error (Errorf "unable to find a credentials source" []), [])

/-- The method `loadCredentials`. -/
def Connection.loadCredentials (w : World) (c : Connection) :
    Run Connection (Option GoError) :=
  if !c.credLoaded then
    match c.fetch w with
    | (.error err, tr) => ⟨some err, c, tr⟩
    | (.ok data, tr) =>
      match w.unmarshalSecretData data with
      | .error err =>
        ⟨some (Errorf "%w error reading data into credentails" [.err err]), c, tr⟩
      | .ok s =>
        let c1 := { c with credLoaded := true }
        let c2 := c1.fromSecret s
        match c2.Validate with
        | some err => ⟨some err, c2, tr⟩
        | none => ⟨none, c2, tr⟩
  else ⟨none, c, []⟩

/-- The query both builders pass to `link.Exec`. -/
def timeZoneCommand : String := "SET time_zone = 'Europe/London'"

/-- The method `ConnectByIP`. -/
def Connection.ConnectByIP (w : World) (c : Connection) :
    Run Connection (Option DB × Option GoError) :=
  let r := c.loadCredentials w
  match r.ret with
  | some err => ⟨(none, some err), r.state, r.trace⟩
  | none =>
    let c := r.state
    if len c.private_ = 0 then
      ⟨(none, some (Errorf "%w missing private IP" [.err ErrMissingConfigurationVariable])),
        c, r.trace⟩
    else
      let sqlS := Sprintf "%s:%s@tcp(%s:3306)/%s?autocommit=true&parseTime=true"
        [.str c.username, .str c.password, .str c.private_, .str c.database]
      match w.sqlOpen "mysql" sqlS with
      | .error err =>
        ⟨(none, some (Errorf "%w [%v]" [.err ErrConnectingToDatabase, .err err])), c,
          r.trace ++ [.sqlOpen "mysql" sqlS, .logErrorf (Sprintf "ConnectionIP: %v" [.err err])]⟩
      | .ok link =>
        match w.exec link timeZoneCommand with
        | .error err =>
          ⟨(none, some (Errorf "%w [%v]" [.err ErrConnectingToDatabase, .err err])), c,
            r.trace ++ [.sqlOpen "mysql" sqlS, .exec link timeZoneCommand,
              .logErrorf (Sprintf "ConnectionIP: %v" [.err err])]⟩
        | .ok _ =>
          ⟨(some link, none), c, r.trace ++ [.sqlOpen "mysql" sqlS, .exec link timeZoneCommand]⟩

/-- The method `ConnectBySocket`. -/
def Connection.ConnectBySocket (w : World) (c : Connection) :
    Run Connection (Option DB × Option GoError) :=
  let r := c.loadCredentials w
  match r.ret with
  | some err => ⟨(none, some err), r.state, r.trace⟩
  | none =>
    let c := r.state
    if len c.host = 0 then
      ⟨(none, some (Errorf "%w missing database host" [.err ErrMissingConfigurationVariable])),
        c, r.trace⟩
    else
      let socketDir :=
        if len (w.getenv "SQLPATH") > 0 then w.getenv "SQLPATH" else "/cloudsql"
      let dbURI := Sprintf "%s:%s@unix(/%s/%s)/%s?parseTime=true&autocommit=true"
        [.str c.username, .str c.password, .str socketDir, .str c.host, .str c.database]
      match w.sqlOpen "mysql" dbURI with
      | .error err =>
        ⟨(none, some (Errorf "%w [%v]" [.err ErrConnectingToDatabase, .err err])), c,
          r.trace ++ [.sqlOpen "mysql" dbURI,
            .logErrorf (Sprintf "ConnectionBySocket: %v" [.err err])]⟩
      | .ok link =>
        match w.exec link timeZoneCommand with
        | .error err =>
          ⟨(none, some (Errorf "%w [%v]" [.err ErrConnectingToDatabase, .err err])), c,
            r.trace ++ [.sqlOpen "mysql" dbURI, .exec link timeZoneCommand,
              .logErrorf (Sprintf "ConnectionBySocket: %v" [.err err])]⟩
        | .ok _ =>
          ⟨(some link, none), c, r.trace ++ [.sqlOpen "mysql" dbURI, .exec link timeZoneCommand]⟩

end database

/-! ## Package `email` -/

namespace email

/-- The struct `Client`. -/
structure Client where
  Domain : String
  apiKey : String
  credLoaded : Bool
  DataPath : String
deriving DecidableEq, Repr

/-- The source-selection block of `load` (lines 40 to 50). -/
def Client.fetch (w : World) (i : Client) : Except GoError Bytes × List Event :=
  if len (w.getenv "SECRET_PATH") > 0 then
    match secret.Get w (w.getenv "SECRET_PATH") with
    | (.error err, tr) =>
      (.error (Errorf "%w error getting data from SECRET_PATH" [.err err]), tr)
    | (.ok data, tr) => (.ok data, tr)
  else if len i.DataPath > 0 then
    match secret.GetFromVolume w i.DataPath with
    | (.error err, tr) =>
      (.error (Errorf "%w error getting data from %s" [.err err, .str i.DataPath]), tr)
    | (.ok data, tr) => (.ok data, tr)
  else (.error (Errorf "unable to find a credentials source" []), [])

/-- The method `load`. -/
def Client.load (w : World) (i : Client) : Run Client (Option GoError) :=
  if !i.credLoaded then
    match i.fetch w with
    | (.error err, tr) => ⟨some err, i, tr⟩
    | (.ok data, tr) =>
      match w.unmarshalClientCreds data with
      | .error err =>
        ⟨some (Errorf "%w error loading data into information" [.err err]), i, tr⟩
      | .ok mi =>
        if len mi.Domain = 0 then ⟨some (Errorf "missing mailgun domain" []), i, tr⟩
        else if len mi.Key = 0 then ⟨some (Errorf "missing mailgun API key" []), i, tr⟩
        else ⟨none, { i with apiKey := mi.Key, Domain := mi.Domain, credLoaded := true }, tr⟩
  else ⟨none, i, []⟩

/-- The method `Client`, named `Client.Client` in Go. -/
def Client.Client (w : World) (i : Client) :
    Run Client (Option MailgunImpl × Option GoError) :=
  let r := i.load w
  match r.ret with
  | some err => ⟨(none, some err), r.state, r.trace⟩
  | none => ⟨(some (NewMailgun r.state.Domain r.state.apiKey), none), r.state, r.trace⟩

end email

/-! ## Sequences of calls and concrete scenarios -/

namespace database

/-- The value `Connection{CredsPath: path}`: every other field is Go's zero value. -/
def Connection.fresh (path : String) : Connection :=
  { host := "", username := "", password := "", database := "", private_ := "",
    credLoaded := false, CredsPath := path }

/-- One `loadCredentials` call per world of the list, in order, on one instance:
what each call returned and its trace, and the instance after the last call. -/
def Connection.loadCredentialsSeq :
    List World → Connection → List (Option GoError × List Event) × Connection
  | [], c => ([], c)
  | w :: ws, c =>
    let r := c.loadCredentials w
    let rest := Connection.loadCredentialsSeq ws r.state
    ((r.ret, r.trace) :: rest.1, rest.2)

end database

namespace email

/-- The value `Client{DataPath: path}`: every other field is Go's zero value. -/
def Client.fresh (path : String) : email.Client :=
  { Domain := "", apiKey := "", credLoaded := false, DataPath := path }

/-- One `load` call per world of the list, in order, on one instance. -/
def Client.loadSeq :
    List World → email.Client → List (Option GoError × List Event) × email.Client
  | [], i => ([], i)
  | w :: ws, i =>
    let r := i.load w
    let rest := Client.loadSeq ws r.state
    ((r.ret, r.trace) :: rest.1, rest.2)

end email

/-- A world without environment hints whose only readable file is `path`, holding
`payload`; `json.Unmarshal` decodes `payload` to `s` and to `mi`; the secret
manager is unreachable; `sql.Open` returns handle 1 and `Exec` succeeds. -/
def fileWorld (path : String) (payload : Bytes) (s : database.secretData)
    (mi : email.clientCreds) : World :=
  { getenv := fun _ => ""
    newClient := .error (.errorString "could not find default credentials")
    accessSecretVersion := fun _ => .error (.errorString "unavailable")
    readFile := fun p =>
      if p = path then .ok payload else .error (.errorString "no such file or directory")
    unmarshalSecretData := fun data =>
      if data = payload then .ok s else .error (.errorString "unexpected end of JSON input")
    unmarshalClientCreds := fun data =>
      if data = payload then .ok mi else .error (.errorString "unexpected end of JSON input")
    sqlOpen := fun _ _ => .ok ⟨1⟩
    exec := fun _ _ => .ok () }

/-- The file `creds.json` holds
`{"instance":"h","username":"u","password":"p","database":"d","private":"10.0.0.5"}`. -/
def worldValid : World :=
  fileWorld "creds.json"
    "\x7b\"instance\":\"h\",\"username\":\"u\",\"password\":\"p\",\"database\":\"d\",\"private\":\"10.0.0.5\"\x7d"
    ⟨"h", "u", "p", "d", "10.0.0.5"⟩ ⟨"", ""⟩

/-- The file `creds.json` holds a record whose `username` is empty. -/
def worldNoUsername : World :=
  fileWorld "creds.json"
    "\x7b\"instance\":\"h\",\"username\":\"\",\"password\":\"p\",\"database\":\"d\",\"private\":\"10.0.0.5\"\x7d"
    ⟨"h", "", "p", "d", "10.0.0.5"⟩ ⟨"", ""⟩

/-- The file `creds.json` holds a record whose `password` is empty. -/
def worldNoPassword : World :=
  fileWorld "creds.json"
    "\x7b\"instance\":\"h\",\"username\":\"u\",\"password\":\"\",\"database\":\"d\",\"private\":\"10.0.0.5\"\x7d"
    ⟨"h", "u", "", "d", "10.0.0.5"⟩ ⟨"", ""⟩

/-- The file `creds.json` holds a record whose `private` is empty. -/
def worldNoPrivate : World :=
  fileWorld "creds.json"
    "\x7b\"instance\":\"h\",\"username\":\"u\",\"password\":\"p\",\"database\":\"d\",\"private\":\"\"\x7d"
    ⟨"h", "u", "p", "d", ""⟩ ⟨"", ""⟩

/-- The file `mail.json` holds
`{"mailgun_domain":"example.com","mailgun_key":"k"}`. -/
def worldMail : World :=
  fileWorld "mail.json"
    "\x7b\"mailgun_domain\":\"example.com\",\"mailgun_key\":\"k\"\x7d"
    ⟨"", "", "", "", ""⟩ ⟨"example.com", "k"⟩

/-- As `worldValid`, with both hints `SECRET_PATH` and `SQLPATH` set and the secret
manager serving the payload. -/
def worldRemote : World :=
  { worldValid with
    getenv := fun k =>
      if k = "SECRET_PATH" then "projects/p/secrets/db/versions/latest"
      else if k = "SQLPATH" then "/sockets" else ""
    newClient := .ok ()
    accessSecretVersion := fun _ =>
      .ok "\x7b\"instance\":\"h\",\"username\":\"u\",\"password\":\"p\",\"database\":\"d\",\"private\":\"10.0.0.5\"\x7d" }

/-- As `worldMail`, with `SECRET_PATH` set and the secret manager serving the mail
payload under exactly that locator. -/
def worldMailRemote : World :=
  { worldMail with
    getenv := fun k => if k = "SECRET_PATH" then "projects/p/secrets/mail/versions/latest" else ""
    newClient := .ok ()
    accessSecretVersion := fun name =>
      if name = "projects/p/secrets/mail/versions/latest" then
        .ok "\x7b\"mailgun_domain\":\"example.com\",\"mailgun_key\":\"k\"\x7d"
      else .error (.errorString "not found") }

/-- As `worldValid`, with a driver whose `sql.Open` fails. -/
def worldOpenFails : World :=
  { worldValid with sqlOpen := fun _ _ => .error (.errorString "invalid DSN") }

/-! ## The socket target as the specification words it -/

/-- The socket directory in the specification's words: the value of the `SQLPATH`
hint when that is non-empty, the fixed default `/cloudsql` otherwise. -/
def specSocketDir (sqlpath : String) : String :=
  if sqlpath ≠ "" then sqlpath else "/cloudsql"

/-- The socket path in the specification's words: the socket directory followed by
`/` and the host. -/
def specSocketPath (sqlpath host : String) : String :=
  specSocketDir sqlpath ++ "/" ++ host

/-- The local-socket connection target in the specification's words. -/
def specSocketTarget (username password sqlpath host database : String) : String :=
  username ++ ":" ++ password ++ "@unix(" ++ specSocketPath sqlpath host ++ ")/" ++
    database ++ "?parseTime=true&autocommit=true"

/-! # Theorems -/

open database

/-! ## Go runtime -/

/-- A string has zero bytes exactly when it is the empty string. -/
theorem len_eq_zero_iff (s : String) : len s = 0 ↔ s = "" := by
  cases s with
  | mk l =>
    cases l with
    | nil => simp [len]; rfl
    | cons a t =>
      have h := Char.utf8Size_pos a
      simp [len, String.utf8ByteSize, String.utf8ByteSize.go]
      constructor
      · omega
      · intro h2; exact absurd h2 (by simp [String.ext_iff])

/-- A string has a positive byte count exactly when it is not empty. -/
theorem len_pos_iff (s : String) : 0 < len s ↔ s ≠ "" := by
  rw [Nat.pos_iff_ne_zero, Ne, len_eq_zero_iff]

/-- The error both builders return when the open or the time-zone command fails. -/
theorem Errorf_connecting (err : GoError) :
    Errorf "%w [%v]" [.err ErrConnectingToDatabase, .err err] =
      .wrapError ("unexpected error connecting to the database [" ++ err.Error ++ "]")
        ErrConnectingToDatabase := by
  simp [Errorf, wrappedOperand, Sprintf, formatChars, Arg.text, ErrConnectingToDatabase,
    GoError.Error, String.ext_iff]

/-- The direct-network format, interpreted on arbitrary operands. -/
theorem Sprintf_tcp (u p h d : String) :
    Sprintf "%s:%s@tcp(%s:3306)/%s?autocommit=true&parseTime=true"
        [.str u, .str p, .str h, .str d] =
      u ++ ":" ++ p ++ "@tcp(" ++ h ++ ":3306)/" ++ d ++ "?autocommit=true&parseTime=true" := by
  apply String.ext
  simp [Sprintf, formatChars, Arg.text]

/-- The local-socket format, interpreted on arbitrary operands. -/
theorem Sprintf_unix (u p dir h d : String) :
    Sprintf "%s:%s@unix(/%s/%s)/%s?parseTime=true&autocommit=true"
        [.str u, .str p, .str dir, .str h, .str d] =
      u ++ ":" ++ p ++ "@unix(/" ++ dir ++ "/" ++ h ++ ")/" ++ d ++
        "?parseTime=true&autocommit=true" := by
  apply String.ext
  simp [Sprintf, formatChars, Arg.text]

/-! ## The database loader -/

/-- On a loaded connection `loadCredentials` does nothing. -/
theorem loadCredentials_of_loaded (w : World) (c : Connection) (h : c.credLoaded = true) :
    c.loadCredentials w = ⟨none, c, []⟩ := by
  simp [Connection.loadCredentials, h]

/-- On an unloaded connection `loadCredentials` is its body: fetch, parse, store,
validate. The stored record already has `credLoaded = true` when `Validate` runs. -/
theorem loadCredentials_of_unloaded (w : World) (c : Connection) (h : c.credLoaded = false) :
    c.loadCredentials w =
      match c.fetch w with
      | (.error err, tr) => ⟨some err, c, tr⟩
      | (.ok data, tr) =>
        match w.unmarshalSecretData data with
        | .error err =>
          ⟨some (Errorf "%w error reading data into credentails" [.err err]), c, tr⟩
        | .ok s =>
          ⟨(Connection.fromSecret { c with credLoaded := true } s).Validate,
            Connection.fromSecret { c with credLoaded := true } s, tr⟩ := by
  rcases hf : c.fetch w with ⟨err | data, tr⟩
  · simp [Connection.loadCredentials, h, hf]
  · cases hu : w.unmarshalSecretData data with
    | error err => simp [Connection.loadCredentials, h, hf, hu]
    | ok s =>
      simp only [Connection.loadCredentials, h, hf, hu]
      cases hv : (Connection.fromSecret { c with credLoaded := true } s).Validate <;> simp_all

/-- A nil return of `loadCredentials` leaves `credLoaded` set. -/
theorem loadCredentials_ok_loaded (w : World) (c : Connection)
    (h : (c.loadCredentials w).ret = none) : (c.loadCredentials w).state.credLoaded = true := by
  cases hl : c.credLoaded with
  | true => simp [loadCredentials_of_loaded w c hl, hl]
  | false =>
    rw [loadCredentials_of_unloaded w c hl] at h ⊢
    rcases hf : c.fetch w with ⟨err | data, tr⟩
    · simp [hf] at h
    · cases hu : w.unmarshalSecretData data with
      | error err => simp [hf, hu] at h
      | ok s => simp [hf, hu, Connection.fromSecret]

/-- The only outside calls of `loadCredentials` are those of the fetch. -/
theorem loadCredentials_trace (w : World) (c : Connection) (h : c.credLoaded = false) :
    (c.loadCredentials w).trace = (c.fetch w).2 := by
  rw [loadCredentials_of_unloaded w c h]
  rcases hf : c.fetch w with ⟨err | data, tr⟩
  · simp
  · cases hu : w.unmarshalSecretData data <;> simp [hu]

/-- Any number of `loadCredentials` calls on a loaded connection do nothing. -/
theorem loadCredentialsSeq_of_loaded (ws : List World) (c : Connection)
    (h : c.credLoaded = true) :
    c.loadCredentialsSeq ws = (ws.map (fun _ => (none, [])), c) := by
  induction ws with
  | nil => rfl
  | cons w ws ih => simp [Connection.loadCredentialsSeq, loadCredentials_of_loaded w c h, ih]

/-! ## The email loader -/

/-- On a loaded client `load` does nothing. -/
theorem load_of_loaded (w : World) (i : email.Client) (h : i.credLoaded = true) :
    i.load w = ⟨none, i, []⟩ := by
  simp [email.Client.load, h]

/-- A nil return of `load` leaves `credLoaded` set. -/
theorem load_ok_loaded (w : World) (i : email.Client)
    (h : (i.load w).ret = none) : (i.load w).state.credLoaded = true := by
  cases hl : i.credLoaded with
  | true => simp [load_of_loaded w i hl, hl]
  | false =>
    unfold email.Client.load at h ⊢
    simp only [hl] at h ⊢
    rcases hf : i.fetch w with ⟨err | data, tr⟩
    · simp [hf] at h
    · cases hu : w.unmarshalClientCreds data with
      | error err => simp [hf, hu] at h
      | ok mi =>
        simp only [hf, hu] at h ⊢
        by_cases h1 : len mi.Domain = 0
        · simp [h1] at h
        · by_cases h2 : len mi.Key = 0
          · simp [h1, h2] at h
          · simp [h1, h2]

/-- The only outside calls of `load` are those of the fetch. -/
theorem load_trace (w : World) (i : email.Client) (h : i.credLoaded = false) :
    (i.load w).trace = (i.fetch w).2 := by
  unfold email.Client.load
  simp only [h]
  rcases hf : i.fetch w with ⟨err | data, tr⟩
  · simp
  · cases hu : w.unmarshalClientCreds data with
    | error err => simp [hu]
    | ok mi =>
      by_cases h1 : len mi.Domain = 0
      · simp [hu, h1]
      · by_cases h2 : len mi.Key = 0 <;> simp [hu, h1, h2]

/-- Any number of `load` calls on a loaded client do nothing. -/
theorem loadSeq_of_loaded (ws : List World) (i : email.Client) (h : i.credLoaded = true) :
    i.loadSeq ws = (ws.map (fun _ => (none, [])), i) := by
  induction ws with
  | nil => rfl
  | cons w ws ih => simp [email.Client.loadSeq, load_of_loaded w i h, ih]

/-! ## Source selection -/

/-- The error of the final `else` branch of both loaders. -/
theorem Errorf_no_source :
    Errorf "unable to find a credentials source" [] =
      .errorString "unable to find a credentials source" := by
  decide

/-- Which outside calls the source selection of `loadCredentials` makes. -/
theorem fetch_trace (w : World) (c : Connection) :
    (c.fetch w).2 =
      if 0 < len (w.getenv "SECRET_PATH") then (secret.Get w (w.getenv "SECRET_PATH")).2
      else if 0 < len c.CredsPath then [.readFile c.CredsPath] else [] := by
  unfold Connection.fetch
  by_cases h1 : 0 < len (w.getenv "SECRET_PATH")
  · simp only [gt_iff_lt, h1, if_true]
    rcases hg : secret.Get w (w.getenv "SECRET_PATH") with ⟨err | data, tr⟩ <;> simp
  · by_cases h2 : 0 < len c.CredsPath
    · simp only [gt_iff_lt, h1, h2, if_true, if_false, secret.GetFromVolume]
      cases w.readFile c.CredsPath <;> simp
    · simp [h1, h2]

/-- Which outside calls the source selection of `load` makes. -/
theorem client_fetch_trace (w : World) (i : email.Client) :
    (i.fetch w).2 =
      if 0 < len (w.getenv "SECRET_PATH") then (secret.Get w (w.getenv "SECRET_PATH")).2
      else if 0 < len i.DataPath then [.readFile i.DataPath] else [] := by
  unfold email.Client.fetch
  by_cases h1 : 0 < len (w.getenv "SECRET_PATH")
  · simp only [gt_iff_lt, h1, if_true]
    rcases hg : secret.Get w (w.getenv "SECRET_PATH") with ⟨err | data, tr⟩ <;> simp
  · by_cases h2 : 0 < len i.DataPath
    · simp only [gt_iff_lt, h1, h2, if_true, if_false, secret.GetFromVolume]
      cases w.readFile i.DataPath <;> simp
    · simp [h1, h2]

/-- The outside calls of `secret.Get`. -/
theorem Get_trace (w : World) (path : String) :
    (secret.Get w path).2 =
      match w.newClient with
      | .error _ => [.newSecretClient]
      | .ok _ => [.newSecretClient, .accessSecretVersion path] := by
  unfold secret.Get secret.getSecret
  cases w.newClient with
  | error e => simp
  | ok u => cases w.accessSecretVersion path <;> simp

/-- The function `secret.Get` reads no file. -/
theorem Get_trace_no_readFile (w : World) (path p : String) :
    Event.readFile p ∉ (secret.Get w path).2 := by
  rw [Get_trace]
  cases w.newClient <;> simp

/-- C5. Once `loadCredentials` (database) or `load` (email) has returned nil, every
later call on the same instance, in whatever worlds, returns nil with an empty
trace (no secret-manager call, no file read) and leaves the instance, hence every
credential field and `credLoaded`, as it was. -/
theorem load_once_idempotent (wd we : World) (later : List World)
    (c : Connection) (i : email.Client) :
    ((c.loadCredentials wd).ret = none →
      (c.loadCredentials wd).state.credLoaded = true ∧
      (c.loadCredentials wd).state.loadCredentialsSeq later =
        (later.map (fun _ => (none, [])), (c.loadCredentials wd).state)) ∧
    ((i.load we).ret = none →
      (i.load we).state.credLoaded = true ∧
      (i.load we).state.loadSeq later = (later.map (fun _ => (none, [])), (i.load we).state)) :=
  ⟨fun h => ⟨loadCredentials_ok_loaded wd c h,
      loadCredentialsSeq_of_loaded later _ (loadCredentials_ok_loaded wd c h)⟩,
    fun h => ⟨load_ok_loaded we i h, loadSeq_of_loaded later _ (load_ok_loaded we i h)⟩⟩

/-- C5 at a concrete input: after a successful load from `creds.json` and from
`mail.json`, two further calls, in a world with an invalid file and in a world with
the remote hint set, both return nil, touch no source and change nothing. -/
theorem load_once_idempotent_witness :
    ((Connection.fresh "creds.json").loadCredentials worldValid).ret = none ∧
    ((email.Client.fresh "mail.json").load worldMail).ret = none ∧
    ((Connection.fresh "creds.json").loadCredentials worldValid).state.loadCredentialsSeq
        [worldNoUsername, worldRemote] =
      ([(none, []), (none, [])],
        ((Connection.fresh "creds.json").loadCredentials worldValid).state) ∧
    ((email.Client.fresh "mail.json").load worldMail).state.loadSeq
        [worldNoUsername, worldRemote] =
      ([(none, []), (none, [])], ((email.Client.fresh "mail.json").load worldMail).state) :=
  ⟨by decide, by decide,
    ((load_once_idempotent worldValid worldMail [worldNoUsername, worldRemote]
      (Connection.fresh "creds.json") (email.Client.fresh "mail.json")).1 (by decide)).2,
    ((load_once_idempotent worldValid worldMail [worldNoUsername, worldRemote]
      (Connection.fresh "creds.json") (email.Client.fresh "mail.json")).2 (by decide)).2⟩

/-- C6. On an unloaded instance of either loader: with a non-empty `SECRET_PATH`
the trace is that of `secret.Get` on that locator (client creation, then the
access request for exactly that locator when the client was created) and holds
no file read, whatever the local path; with an empty hint and a non-empty local
path the trace is exactly one read of that path; with both empty the call returns
the no-credentials-source error, makes no call and leaves the instance as it was. -/
theorem source_selection (w : World) (c : Connection) (i : email.Client)
    (hc : c.credLoaded = false) (hi : i.credLoaded = false) :
    (0 < len (w.getenv "SECRET_PATH") →
      (c.loadCredentials w).trace =
        (match w.newClient with
          | .error _ => [.newSecretClient]
          | .ok _ => [.newSecretClient, .accessSecretVersion (w.getenv "SECRET_PATH")]) ∧
      (i.load w).trace = (c.loadCredentials w).trace ∧
      ∀ p, Event.readFile p ∉ (c.loadCredentials w).trace ∧
        Event.readFile p ∉ (i.load w).trace) ∧
    (len (w.getenv "SECRET_PATH") = 0 →
      (0 < len c.CredsPath → (c.loadCredentials w).trace = [.readFile c.CredsPath]) ∧
      (0 < len i.DataPath → (i.load w).trace = [.readFile i.DataPath]) ∧
      (len c.CredsPath = 0 →
        (c.loadCredentials w).ret =
            some (.errorString "unable to find a credentials source") ∧
          (c.loadCredentials w).trace = [] ∧ (c.loadCredentials w).state = c) ∧
      (len i.DataPath = 0 →
        (i.load w).ret = some (.errorString "unable to find a credentials source") ∧
          (i.load w).trace = [] ∧ (i.load w).state = i)) := by
  refine ⟨fun h => ?_, fun h => ⟨fun h2 => ?_, fun h2 => ?_, fun h2 => ?_, fun h2 => ?_⟩⟩
  · have e1 : (c.loadCredentials w).trace = (secret.Get w (w.getenv "SECRET_PATH")).2 := by
      rw [loadCredentials_trace w c hc, fetch_trace, if_pos h]
    have e2 : (i.load w).trace = (secret.Get w (w.getenv "SECRET_PATH")).2 := by
      rw [load_trace w i hi, client_fetch_trace, if_pos h]
    refine ⟨by rw [e1, Get_trace], by rw [e1, e2], fun p => ?_⟩
    rw [e1, e2]
    exact ⟨Get_trace_no_readFile _ _ _, Get_trace_no_readFile _ _ _⟩
  · rw [loadCredentials_trace w c hc, fetch_trace, if_neg (by omega), if_pos h2]
  · rw [load_trace w i hi, client_fetch_trace, if_neg (by omega), if_pos h2]
  · have hf : c.fetch w = (.error (Errorf "unable to find a credentials source" []), []) := by
      simp [Connection.fetch, h, h2]
    rw [loadCredentials_of_unloaded w c hc, hf]
    exact ⟨congrArg some Errorf_no_source, rfl, rfl⟩
  · have hf : i.fetch w = (.error (Errorf "unable to find a credentials source" []), []) := by
      simp [email.Client.fetch, h, h2]
    simp only [email.Client.load, hi, hf]
    exact ⟨congrArg some Errorf_no_source, rfl, rfl⟩

/-- C6 at concrete inputs: with `SECRET_PATH` set and a local path configured only
the secret manager is called; without the hint only the local file is read. -/
theorem source_selection_witness :
    ((Connection.fresh "creds.json").loadCredentials worldRemote).trace =
        [.newSecretClient, .accessSecretVersion "projects/p/secrets/db/versions/latest"] ∧
    ((email.Client.fresh "mail.json").load worldRemote).trace =
        [.newSecretClient, .accessSecretVersion "projects/p/secrets/db/versions/latest"] ∧
    ((Connection.fresh "creds.json").loadCredentials worldValid).trace =
        [.readFile "creds.json"] ∧
    ((email.Client.fresh "mail.json").load worldMail).trace = [.readFile "mail.json"] ∧
    ((Connection.fresh "").loadCredentials worldValid).ret =
        some (.errorString "unable to find a credentials source") :=
  ⟨((source_selection worldRemote (Connection.fresh "creds.json")
      (email.Client.fresh "mail.json") rfl rfl).1 (by decide)).1,
    (((source_selection worldRemote (Connection.fresh "creds.json")
      (email.Client.fresh "mail.json") rfl rfl).1 (by decide)).2.1).trans
      ((source_selection worldRemote (Connection.fresh "creds.json")
        (email.Client.fresh "mail.json") rfl rfl).1 (by decide)).1,
    ((source_selection worldValid (Connection.fresh "creds.json")
      (email.Client.fresh "mail.json") rfl rfl).2 (by decide)).1 (by decide),
    ((source_selection worldMail (Connection.fresh "creds.json")
      (email.Client.fresh "mail.json") rfl rfl).2 (by decide)).2.1 (by decide),
    (((source_selection worldValid (Connection.fresh "")
      (email.Client.fresh "") rfl rfl).2 (by decide)).2.2.1 (by decide)).1⟩

/-! ## The email client -/

/-- On an unloaded client `load` is its body: fetch, parse, the two checks, store. -/
theorem load_of_unloaded (w : World) (i : email.Client) (h : i.credLoaded = false) :
    i.load w =
      match i.fetch w with
      | (.error err, tr) => ⟨some err, i, tr⟩
      | (.ok data, tr) =>
        match w.unmarshalClientCreds data with
        | .error err =>
          ⟨some (Errorf "%w error loading data into information" [.err err]), i, tr⟩
        | .ok mi =>
          if len mi.Domain = 0 then ⟨some (.errorString "missing mailgun domain"), i, tr⟩
          else if len mi.Key = 0 then ⟨some (.errorString "missing mailgun API key"), i, tr⟩
          else ⟨none, ⟨mi.Domain, mi.Key, true, i.DataPath⟩, tr⟩ := by
  have e1 : Errorf "missing mailgun domain" [] = .errorString "missing mailgun domain" := by
    decide
  have e2 : Errorf "missing mailgun API key" [] = .errorString "missing mailgun API key" := by
    decide
  simp [email.Client.load, h, e1, e2]

/-- C9. When `load` on a client with `credLoaded = false` returns an error, the
client is exactly what it was (`Domain`, `apiKey`, `DataPath` unchanged,
`credLoaded` still false). Each failing stage does return an error: a failed
fetch (which includes the no-source case), a failed parse, an empty
`mailgun_domain` (reported as the missing domain, also when the key is empty
too), and an empty `mailgun_key` after a non-empty domain. -/
theorem email_load_atomic (w : World) (i : email.Client) (hi : i.credLoaded = false) :
    ((i.load w).ret ≠ none → (i.load w).state = i ∧ (i.load w).state.credLoaded = false) ∧
    (∀ err tr, i.fetch w = (.error err, tr) → (i.load w).ret = some err) ∧
    (∀ data tr, i.fetch w = (.ok data, tr) →
      (∀ err, w.unmarshalClientCreds data = .error err →
        (i.load w).ret = some (Errorf "%w error loading data into information" [.err err])) ∧
      (∀ mi, w.unmarshalClientCreds data = .ok mi →
        (mi.Domain = "" →
          (i.load w).ret = some (.errorString "missing mailgun domain")) ∧
        (mi.Domain ≠ "" → mi.Key = "" →
          (i.load w).ret = some (.errorString "missing mailgun API key")))) := by
  rw [load_of_unloaded w i hi]
  refine ⟨fun h => ?_, fun err tr hf => by simp [hf], fun data tr hf =>
    ⟨fun err hu => by simp [hf, hu], fun mi hu => ⟨fun hd => ?_, fun hd hk => ?_⟩⟩⟩
  · rcases hf : i.fetch w with ⟨err | data, tr⟩
    · simp [hi]
    · simp only [hf] at h ⊢
      cases hu : w.unmarshalClientCreds data with
      | error err => simp [hi]
      | ok mi =>
        simp only [hu] at h ⊢
        by_cases h1 : len mi.Domain = 0
        · simp [h1, hi]
        · by_cases h2 : len mi.Key = 0
          · simp [h1, h2, hi]
          · simp [h1, h2] at h
  · simp [hf, hu, (len_eq_zero_iff _).2 hd]
  · simp [hf, hu, (len_eq_zero_iff _).2 hk, len_eq_zero_iff, hd]

/-- C9 at a concrete input: the database payload decodes to an email record with
both fields empty; `load` reports the missing domain and leaves the client as it was. -/
theorem email_load_atomic_witness :
    ((email.Client.fresh "creds.json").load worldValid).ret =
        some (.errorString "missing mailgun domain") ∧
    ((email.Client.fresh "creds.json").load worldValid).state =
        email.Client.fresh "creds.json" :=
  ⟨by decide,
    ((email_load_atomic worldValid (email.Client.fresh "creds.json") rfl).1 (by decide)).1⟩

/-- With `SECRET_PATH` set, the fetch of `load` returns what the secret manager
serves under that locator. -/
theorem client_fetch_remote (w : World) (i : email.Client) (data : Bytes)
    (h : 0 < len (w.getenv "SECRET_PATH")) (hc : w.newClient = .ok ())
    (ha : w.accessSecretVersion (w.getenv "SECRET_PATH") = .ok data) :
    i.fetch w =
      (.ok data, [.newSecretClient, .accessSecretVersion (w.getenv "SECRET_PATH")]) := by
  simp [email.Client.fetch, h, secret.Get, secret.getSecret, hc, ha]

/-- Without `SECRET_PATH` and with a data path, the fetch of `load` returns the
content of the file at that path. -/
theorem client_fetch_local (w : World) (i : email.Client) (data : Bytes)
    (h : len (w.getenv "SECRET_PATH") = 0) (hp : 0 < len i.DataPath)
    (hr : w.readFile i.DataPath = .ok data) :
    i.fetch w = (.ok data, [.readFile i.DataPath]) := by
  simp [email.Client.fetch, h, hp, secret.GetFromVolume, hr]

/-- Bytes the fetch of `load` returns were served by the selected source. -/
theorem client_fetch_ok (w : World) (i : email.Client) (data : Bytes) (tr : List Event)
    (hf : i.fetch w = (.ok data, tr)) :
    (0 < len (w.getenv "SECRET_PATH") ∧ w.newClient = .ok () ∧
        w.accessSecretVersion (w.getenv "SECRET_PATH") = .ok data) ∨
      (len (w.getenv "SECRET_PATH") = 0 ∧ 0 < len i.DataPath ∧
        w.readFile i.DataPath = .ok data) := by
  unfold email.Client.fetch at hf
  by_cases h1 : 0 < len (w.getenv "SECRET_PATH")
  · left
    simp only [gt_iff_lt, h1, if_true, secret.Get, secret.getSecret] at hf
    cases hc : w.newClient with
    | error e => simp [hc] at hf
    | ok u =>
      cases ha : w.accessSecretVersion (w.getenv "SECRET_PATH") with
      | error e => simp [hc, ha] at hf
      | ok d =>
        simp [hc, ha] at hf
        exact ⟨h1, rfl, by rw [hf.1]⟩
  · right
    by_cases h2 : 0 < len i.DataPath
    · simp only [gt_iff_lt, h1, h2, if_true, if_false, secret.GetFromVolume] at hf
      cases hr : w.readFile i.DataPath with
      | error e => simp [hr] at hf
      | ok d =>
        simp [hr] at hf
        exact ⟨by omega, h2, by rw [hf.1]⟩
    · simp [h1, h2] at hf

/-- C10. On a client with `credLoaded = false`: if the selected source (the secret
manager under the `SECRET_PATH` locator when that hint is set, else the file at
`DataPath`) serves a payload that `json.Unmarshal` decodes to a record with
non-empty `mailgun_domain` D and `mailgun_key` K, then `Client()` returns a nil
error and a Mailgun client whose domain is D and whose API key is K, stores D and
K, sets `credLoaded`, and its whole trace is that one source fetch. Conversely,
whenever `Client()` returns a nil error, the stored `Domain` and `apiKey` are
non-empty, they are the two fields of a record decoded from what the selected
source served, and the returned client holds exactly them. -/
theorem email_round_trip (w : World) (i : email.Client) (hi : i.credLoaded = false) :
    (∀ data mi,
      ((0 < len (w.getenv "SECRET_PATH") ∧ w.newClient = .ok () ∧
          w.accessSecretVersion (w.getenv "SECRET_PATH") = .ok data) ∨
        (len (w.getenv "SECRET_PATH") = 0 ∧ 0 < len i.DataPath ∧
          w.readFile i.DataPath = .ok data)) →
      w.unmarshalClientCreds data = .ok mi → mi.Domain ≠ "" → mi.Key ≠ "" →
      (i.Client w).ret = (some { domain := mi.Domain, apiKey := mi.Key }, none) ∧
      (i.Client w).state =
        { Domain := mi.Domain, apiKey := mi.Key, credLoaded := true, DataPath := i.DataPath } ∧
      (i.Client w).trace =
        (if 0 < len (w.getenv "SECRET_PATH") then
          [.newSecretClient, .accessSecretVersion (w.getenv "SECRET_PATH")]
        else [.readFile i.DataPath])) ∧
    ((i.Client w).ret.2 = none →
      (i.Client w).state.Domain ≠ "" ∧ (i.Client w).state.apiKey ≠ "" ∧
      (i.Client w).state.credLoaded = true ∧
      (i.Client w).ret.1 =
        some { domain := (i.Client w).state.Domain, apiKey := (i.Client w).state.apiKey } ∧
      ∃ data mi,
        ((0 < len (w.getenv "SECRET_PATH") ∧ w.newClient = .ok () ∧
            w.accessSecretVersion (w.getenv "SECRET_PATH") = .ok data) ∨
          (len (w.getenv "SECRET_PATH") = 0 ∧ 0 < len i.DataPath ∧
            w.readFile i.DataPath = .ok data)) ∧
        w.unmarshalClientCreds data = .ok mi ∧
        (i.Client w).state.Domain = mi.Domain ∧ (i.Client w).state.apiKey = mi.Key) := by
  unfold email.Client.Client
  rw [load_of_unloaded w i hi]
  constructor
  · intro data mi hsrc hu hd hk
    have hd2 : len mi.Domain ≠ 0 := fun h => hd ((len_eq_zero_iff _).1 h)
    have hk2 : len mi.Key ≠ 0 := fun h => hk ((len_eq_zero_iff _).1 h)
    rcases hsrc with ⟨h1, hc, ha⟩ | ⟨h0, hp, hr⟩
    · rw [client_fetch_remote w i data h1 hc ha]
      simp [hu, hd2, hk2, h1, email.NewMailgun]
    · rw [client_fetch_local w i data h0 hp hr]
      simp [hu, hd2, hk2, h0, email.NewMailgun]
  · rcases hf : i.fetch w with ⟨err | data, tr⟩
    · simp
    · have hsrc := client_fetch_ok w i data tr hf
      cases hu : w.unmarshalClientCreds data with
      | error err => simp [hu]
      | ok mi =>
        by_cases h1 : len mi.Domain = 0
        · simp [hu, h1]
        · by_cases h2 : len mi.Key = 0
          · simp [hu, h1, h2]
          · have hd : mi.Domain ≠ "" := fun h => h1 ((len_eq_zero_iff _).2 h)
            have hk : mi.Key ≠ "" := fun h => h2 ((len_eq_zero_iff _).2 h)
            simp only [hu, h1, h2, if_false]
            intro _
            refine ⟨hd, hk, ?_, ?_, data, mi, hsrc, hu, ?_, ?_⟩ <;>
              first | rfl | trivial

/-- C10 at the spec's payload, served once by the file `mail.json` and once by the
secret manager: the client has domain `example.com` and key `k`, and the trace is
the one file read, respectively the one secret-manager request. -/
theorem email_round_trip_witness :
    ((email.Client.fresh "mail.json").Client worldMail).ret =
        (some { domain := "example.com", apiKey := "k" }, none) ∧
    ((email.Client.fresh "mail.json").Client worldMail).state =
        { Domain := "example.com", apiKey := "k", credLoaded := true,
          DataPath := "mail.json" } ∧
    ((email.Client.fresh "mail.json").Client worldMail).trace = [.readFile "mail.json"] ∧
    ((email.Client.fresh "mail.json").Client worldMailRemote).ret =
        (some { domain := "example.com", apiKey := "k" }, none) ∧
    ((email.Client.fresh "mail.json").Client worldMailRemote).trace =
        [.newSecretClient, .accessSecretVersion "projects/p/secrets/mail/versions/latest"] :=
  have h := (email_round_trip worldMail (email.Client.fresh "mail.json") rfl).1
    "\x7b\"mailgun_domain\":\"example.com\",\"mailgun_key\":\"k\"\x7d"
    ⟨"example.com", "k"⟩ (Or.inr ⟨by decide, by decide, rfl⟩) rfl (by decide) (by decide)
  have hr := (email_round_trip worldMailRemote (email.Client.fresh "mail.json") rfl).1
    "\x7b\"mailgun_domain\":\"example.com\",\"mailgun_key\":\"k\"\x7d"
    ⟨"example.com", "k"⟩ (Or.inl ⟨by decide, rfl, rfl⟩) rfl (by decide) (by decide)
  ⟨h.1, h.2.1, h.2.2, hr.1, hr.2.2⟩

/-! ## The connection builders -/

/-- The log line of `ConnectByIP`. -/
theorem Sprintf_logIP (err : GoError) :
    Sprintf "ConnectionIP: %v" [.err err] = "ConnectionIP: " ++ err.Error := by
  apply String.ext
  simp [Sprintf, formatChars, Arg.text]

/-- An error made with `%w` satisfies `errors.Is` for the error it wraps. -/
theorem Is_wrapError_self (msg : String) (e : GoError) :
    (GoError.wrapError msg e).Is e = true := by
  cases e <;> simp [GoError.Is]

/-- After a successful load with a private host, `ConnectByIP` is its open and
configure steps on the target `dsn`. -/
theorem ConnectByIP_of_loaded (w : World) (c : Connection)
    (hload : (c.loadCredentials w).ret = none)
    (hpriv : (c.loadCredentials w).state.private_ ≠ "") (dsn : String)
    (hdsn : dsn = (c.loadCredentials w).state.username ++ ":" ++
      (c.loadCredentials w).state.password ++ "@tcp(" ++
      (c.loadCredentials w).state.private_ ++ ":3306)/" ++
      (c.loadCredentials w).state.database ++ "?autocommit=true&parseTime=true") :
    c.ConnectByIP w =
      match w.sqlOpen "mysql" dsn with
      | .error err =>
        ⟨(none, some (.wrapError
            ("unexpected error connecting to the database [" ++ err.Error ++ "]")
            ErrConnectingToDatabase)),
          (c.loadCredentials w).state,
          (c.loadCredentials w).trace ++
            [.sqlOpen "mysql" dsn, .logErrorf ("ConnectionIP: " ++ err.Error)]⟩
      | .ok link =>
        match w.exec link "SET time_zone = 'Europe/London'" with
        | .error err =>
          ⟨(none, some (.wrapError
              ("unexpected error connecting to the database [" ++ err.Error ++ "]")
              ErrConnectingToDatabase)),
            (c.loadCredentials w).state,
            (c.loadCredentials w).trace ++
              [.sqlOpen "mysql" dsn, .exec link "SET time_zone = 'Europe/London'",
                .logErrorf ("ConnectionIP: " ++ err.Error)]⟩
        | .ok _ =>
          ⟨(some link, none), (c.loadCredentials w).state,
            (c.loadCredentials w).trace ++
              [.sqlOpen "mysql" dsn, .exec link "SET time_zone = 'Europe/London'"]⟩ := by
  have hp : len (c.loadCredentials w).state.private_ ≠ 0 :=
    fun h => hpriv ((len_eq_zero_iff _).1 h)
  unfold Connection.ConnectByIP
  simp only [hload, hp, if_false, Sprintf_tcp, ← hdsn, Errorf_connecting, Sprintf_logIP,
    timeZoneCommand]

/-- C7. After a successful load with a non-empty private host, `ConnectByIP` passes
to `sql.Open` exactly `username:password@tcp(private:3306)/database` followed by
`?autocommit=true&parseTime=true`, right after the loading calls. If the open
fails, the call returns a nil handle and an error wrapping
`ErrConnectingToDatabase`, and no command is sent. If it succeeds, the time-zone
command is sent on the opened handle next; a handle is returned only when that
command succeeded, so every returned handle has the command in the trace right
after its open. -/
theorem connectByIP_target (w : World) (c : Connection)
    (hload : (c.loadCredentials w).ret = none)
    (hpriv : (c.loadCredentials w).state.private_ ≠ "") (dsn : String)
    (hdsn : dsn = (c.loadCredentials w).state.username ++ ":" ++
      (c.loadCredentials w).state.password ++ "@tcp(" ++
      (c.loadCredentials w).state.private_ ++ ":3306)/" ++
      (c.loadCredentials w).state.database ++ "?autocommit=true&parseTime=true") :
    (∃ rest, (c.ConnectByIP w).trace =
        (c.loadCredentials w).trace ++ Event.sqlOpen "mysql" dsn :: rest ∧
        ∀ d s, Event.sqlOpen d s ∉ rest) ∧
    (∀ err, w.sqlOpen "mysql" dsn = .error err →
      (c.ConnectByIP w).ret.1 = none ∧
      (∃ e, (c.ConnectByIP w).ret.2 = some e ∧ e.Is ErrConnectingToDatabase = true) ∧
      (c.ConnectByIP w).trace = (c.loadCredentials w).trace ++
        [.sqlOpen "mysql" dsn, .logErrorf ("ConnectionIP: " ++ err.Error)]) ∧
    (∀ link, w.sqlOpen "mysql" dsn = .ok link →
      (∀ err, w.exec link "SET time_zone = 'Europe/London'" = .error err →
        (c.ConnectByIP w).ret.1 = none ∧
        (∃ e, (c.ConnectByIP w).ret.2 = some e ∧ e.Is ErrConnectingToDatabase = true) ∧
        (c.ConnectByIP w).trace = (c.loadCredentials w).trace ++
          [.sqlOpen "mysql" dsn, .exec link "SET time_zone = 'Europe/London'",
            .logErrorf ("ConnectionIP: " ++ err.Error)]) ∧
      (w.exec link "SET time_zone = 'Europe/London'" = .ok () →
        (c.ConnectByIP w).ret = (some link, none) ∧
        (c.ConnectByIP w).trace = (c.loadCredentials w).trace ++
          [.sqlOpen "mysql" dsn, .exec link "SET time_zone = 'Europe/London'"])) ∧
    (∀ h, (c.ConnectByIP w).ret.1 = some h →
      w.sqlOpen "mysql" dsn = .ok h ∧
      (c.ConnectByIP w).trace = (c.loadCredentials w).trace ++
        [.sqlOpen "mysql" dsn, .exec h "SET time_zone = 'Europe/London'"]) := by
  rw [ConnectByIP_of_loaded w c hload hpriv dsn hdsn]
  cases ho : w.sqlOpen "mysql" dsn with
  | error err =>
    refine ⟨⟨_, rfl, by simp⟩, fun err2 he => ?_, fun link hl => by simp at hl, by simp⟩
    cases he
    exact ⟨rfl, ⟨_, rfl, Is_wrapError_self _ _⟩, rfl⟩
  | ok link =>
    cases hx : w.exec link "SET time_zone = 'Europe/London'" with
    | error err =>
      refine ⟨⟨_, by simp only [hx]; rfl, by simp⟩, fun err2 he => by simp at he,
        fun link2 hl => ?_, by simp [hx]⟩
      cases hl
      refine ⟨fun err2 he => ?_, fun he => by simp [hx] at he⟩
      rw [hx] at he
      cases he
      exact ⟨by simp [hx], ⟨_, by simp only [hx]; rfl, Is_wrapError_self _ _⟩, by simp [hx]⟩
    | ok u =>
      refine ⟨⟨_, by simp only [hx]; rfl, by simp⟩, fun err2 he => by simp at he,
        fun link2 hl => ?_, ?_⟩
      · cases hl
        refine ⟨fun err2 he => by simp [hx] at he, fun _ => by simp [hx]⟩
      · intro h hh
        simp only [hx] at hh ⊢
        cases hh
        exact ⟨rfl, rfl⟩

/-- C7 at the spec's payload: the target is
`u:p@tcp(10.0.0.5:3306)/d?autocommit=true&parseTime=true`, the handle comes back
after the time-zone command, and a failing open gives no handle. -/
theorem connectByIP_target_witness :
    ((Connection.fresh "creds.json").loadCredentials worldValid).ret = none ∧
    ((Connection.fresh "creds.json").loadCredentials worldValid).state.private_ ≠ "" ∧
    ((Connection.fresh "creds.json").ConnectByIP worldValid).ret = (some ⟨1⟩, none) ∧
    ((Connection.fresh "creds.json").ConnectByIP worldValid).trace =
      ((Connection.fresh "creds.json").loadCredentials worldValid).trace ++
        [.sqlOpen "mysql" "u:p@tcp(10.0.0.5:3306)/d?autocommit=true&parseTime=true",
          .exec ⟨1⟩ "SET time_zone = 'Europe/London'"] ∧
    ((Connection.fresh "creds.json").ConnectByIP worldOpenFails).ret.1 = none :=
  ⟨by decide, by decide,
    (((connectByIP_target worldValid (Connection.fresh "creds.json") (by decide) (by decide)
      "u:p@tcp(10.0.0.5:3306)/d?autocommit=true&parseTime=true" (by decide)).2.2.1
        ⟨1⟩ rfl).2 rfl).1,
    (((connectByIP_target worldValid (Connection.fresh "creds.json") (by decide) (by decide)
      "u:p@tcp(10.0.0.5:3306)/d?autocommit=true&parseTime=true" (by decide)).2.2.1
        ⟨1⟩ rfl).2 rfl).2,
    ((connectByIP_target worldOpenFails (Connection.fresh "creds.json") (by decide)
      (by decide) "u:p@tcp(10.0.0.5:3306)/d?autocommit=true&parseTime=true" (by decide)).2.1
        (.errorString "invalid DSN") rfl).1⟩

/-- C8 as stated fails: with no `SQLPATH` and fields `u`, `p`, `h`, `d` the claimed
target has socket path `/cloudsql/h`, but the one target `ConnectBySocket` passes
to `sql.Open` has socket path `//cloudsql/h`. -/
theorem connectBySocket_spec_target_not_opened :
    ((Connection.fresh "creds.json").loadCredentials worldValid).ret = none ∧
    ((Connection.fresh "creds.json").loadCredentials worldValid).state.host = "h" ∧
    worldValid.getenv "SQLPATH" = "" ∧
    specSocketTarget "u" "p" "" "h" "d" =
      "u:p@unix(/cloudsql/h)/d?parseTime=true&autocommit=true" ∧
    ((Connection.fresh "creds.json").ConnectBySocket worldValid).trace =
      [.readFile "creds.json",
        .sqlOpen "mysql" "u:p@unix(//cloudsql/h)/d?parseTime=true&autocommit=true",
        .exec ⟨1⟩ "SET time_zone = 'Europe/London'"] ∧
    Event.sqlOpen "mysql" (specSocketTarget "u" "p" "" "h" "d") ∉
      ((Connection.fresh "creds.json").ConnectBySocket worldValid).trace ∧
    ¬ ∀ (w : World) (c : Connection), (c.loadCredentials w).ret = none →
      (c.loadCredentials w).state.host ≠ "" →
      Event.sqlOpen "mysql"
        (specSocketTarget (c.loadCredentials w).state.username
          (c.loadCredentials w).state.password (w.getenv "SQLPATH")
          (c.loadCredentials w).state.host (c.loadCredentials w).state.database) ∈
        (c.ConnectBySocket w).trace :=
  ⟨by decide, by decide, by decide, by decide, by decide, by decide,
    fun h => absurd (h worldValid (Connection.fresh "creds.json") (by decide) (by decide))
      (by decide)⟩

/-- C8 amended. After a successful load with a non-empty host, `ConnectBySocket`
makes exactly one `sql.Open` call, right after the loading calls, and its target
is `username:password@unix(/DIR/host)/database?parseTime=true&autocommit=true`,
where `DIR` is the `SQLPATH` hint when non-empty and `/cloudsql` otherwise: the
socket path is a `/`, the socket directory, a `/` and the host. -/
theorem connectBySocket_target (w : World) (c : Connection)
    (hload : (c.loadCredentials w).ret = none)
    (hhost : (c.loadCredentials w).state.host ≠ "") (dir dsn : String)
    (hdir : dir = if w.getenv "SQLPATH" ≠ "" then w.getenv "SQLPATH" else "/cloudsql")
    (hdsn : dsn = (c.loadCredentials w).state.username ++ ":" ++
      (c.loadCredentials w).state.password ++ "@unix(/" ++ dir ++ "/" ++
      (c.loadCredentials w).state.host ++ ")/" ++
      (c.loadCredentials w).state.database ++ "?parseTime=true&autocommit=true") :
    ∃ rest, (c.ConnectBySocket w).trace =
        (c.loadCredentials w).trace ++ Event.sqlOpen "mysql" dsn :: rest ∧
      ∀ d s, Event.sqlOpen d s ∉ rest := by
  have hp : len (c.loadCredentials w).state.host ≠ 0 :=
    fun h => hhost ((len_eq_zero_iff _).1 h)
  have hd : (if len (w.getenv "SQLPATH") > 0 then w.getenv "SQLPATH" else "/cloudsql") = dir := by
    rw [hdir]
    by_cases h : w.getenv "SQLPATH" = ""
    · rw [if_neg (fun hlen => (len_pos_iff _).1 hlen h), if_neg (not_not.2 h)]
    · rw [if_pos ((len_pos_iff _).2 h), if_pos h]
  unfold Connection.ConnectBySocket
  simp only [hload, hp, if_false, hd, Sprintf_unix, ← hdsn]
  cases w.sqlOpen "mysql" dsn with
  | error err =>
    exact ⟨[.logErrorf (Sprintf "ConnectionBySocket: %v" [.err err])], by simp, by simp⟩
  | ok link =>
    cases hx : w.exec link timeZoneCommand with
    | error err =>
      exact ⟨[.exec link timeZoneCommand,
        .logErrorf (Sprintf "ConnectionBySocket: %v" [.err err])], by simp [hx], by simp⟩
    | ok u => exact ⟨[.exec link timeZoneCommand], by simp [hx], by simp⟩

/-- C8 amended, at concrete inputs: without `SQLPATH` the target is
`u:p@unix(//cloudsql/h)/d?parseTime=true&autocommit=true`; with `SQLPATH=/sockets`
it is `u:p@unix(//sockets/h)/d?parseTime=true&autocommit=true`. -/
theorem connectBySocket_target_witness :
    (∃ rest, ((Connection.fresh "creds.json").ConnectBySocket worldValid).trace =
        ((Connection.fresh "creds.json").loadCredentials worldValid).trace ++
          Event.sqlOpen "mysql" "u:p@unix(//cloudsql/h)/d?parseTime=true&autocommit=true"
            :: rest ∧
        ∀ d s, Event.sqlOpen d s ∉ rest) ∧
    (∃ rest, ((Connection.fresh "creds.json").ConnectBySocket worldRemote).trace =
        ((Connection.fresh "creds.json").loadCredentials worldRemote).trace ++
          Event.sqlOpen "mysql" "u:p@unix(//sockets/h)/d?parseTime=true&autocommit=true"
            :: rest ∧
        ∀ d s, Event.sqlOpen d s ∉ rest) :=
  ⟨connectBySocket_target worldValid (Connection.fresh "creds.json") (by decide) (by decide)
      "/cloudsql" "u:p@unix(//cloudsql/h)/d?parseTime=true&autocommit=true"
      (by decide) (by decide),
    connectBySocket_target worldRemote (Connection.fresh "creds.json") (by decide) (by decide)
      "/sockets" "u:p@unix(//sockets/h)/d?parseTime=true&autocommit=true"
      (by decide) (by decide)⟩

/-! ## Where the code departs from its specification -/

/-- C1, the defect: a payload with an empty `username` fails validation, yet
`credLoaded` is true afterwards and the next `loadCredentials` returns nil without
querying any source. -/
theorem loadCredentials_failed_validation_sets_credLoaded :
    (Connection.fresh "creds.json").credLoaded = false ∧
    ((Connection.fresh "creds.json").loadCredentials worldNoUsername).ret =
      some (.wrapError "missing configuration variable missing username"
        ErrMissingConfigurationVariable) ∧
    ((Connection.fresh "creds.json").loadCredentials worldNoUsername).state.credLoaded
      = true ∧
    (((Connection.fresh "creds.json").loadCredentials worldNoUsername).state.loadCredentials
      worldNoUsername).ret = none ∧
    (((Connection.fresh "creds.json").loadCredentials worldNoUsername).state.loadCredentials
      worldNoUsername).trace = [] := by
  decide

/-- C2, the defect: `Validate` tests `private` where its message says password, so
a payload with an empty `password` loads successfully and the stored password is
empty. -/
theorem loadCredentials_accepts_empty_password :
    ((Connection.fresh "creds.json").loadCredentials worldNoPassword).ret = none ∧
    ((Connection.fresh "creds.json").loadCredentials worldNoPassword).state.password = "" ∧
    ((Connection.fresh "creds.json").loadCredentials worldNoPassword).state.username = "u" ∧
    ((Connection.fresh "creds.json").loadCredentials worldNoPassword).state.database = "d" := by
  decide

/-- C3, the defect: the first `ConnectByIP` fails on the empty `username`; the
second call on the same instance skips loading and returns a handle opened from
the invalid record. A record with an empty `password` gets a handle at once. -/
theorem connectByIP_after_failed_load_returns_handle :
    ((Connection.fresh "creds.json").ConnectByIP worldNoUsername).ret =
      (none, some (.wrapError "missing configuration variable missing username"
        ErrMissingConfigurationVariable)) ∧
    (((Connection.fresh "creds.json").ConnectByIP worldNoUsername).state.ConnectByIP
      worldNoUsername).ret = (some ⟨1⟩, none) ∧
    (((Connection.fresh "creds.json").ConnectByIP worldNoUsername).state.ConnectByIP
      worldNoUsername).state.username = "" ∧
    (((Connection.fresh "creds.json").ConnectByIP worldNoUsername).state.ConnectByIP
      worldNoUsername).trace =
      [.sqlOpen "mysql" ":p@tcp(10.0.0.5:3306)/d?autocommit=true&parseTime=true",
        .exec ⟨1⟩ "SET time_zone = 'Europe/London'"] ∧
    ((Connection.fresh "creds.json").ConnectByIP worldNoPassword).ret = (some ⟨1⟩, none) ∧
    ((Connection.fresh "creds.json").ConnectByIP worldNoPassword).state.password = "" := by
  decide

/-- C4, the defect: with `username`, `password`, `database` and the host set and
`private` empty, `ConnectBySocket` on a fresh connection fails in loading with the
missing-password message and never reaches `sql.Open`. -/
theorem connectBySocket_fails_on_empty_private :
    ((Connection.fresh "creds.json").ConnectBySocket worldNoPrivate).ret =
      (none, some (.wrapError "missing configuration variable missing password"
        ErrMissingConfigurationVariable)) ∧
    ((Connection.fresh "creds.json").ConnectBySocket worldNoPrivate).trace =
      [.readFile "creds.json"] ∧
    ((Connection.fresh "creds.json").ConnectByIP worldNoPrivate).ret =
      (none, some (.wrapError "missing configuration variable missing password"
        ErrMissingConfigurationVariable)) := by
  decide

end Standard
